import Mathlib

/-!
Verification of the WAKEE.reloaded image-analysis API (`src/app.py`).

The embedding models the request-to-decision pipeline of the service:
the drift threshold cascade of the `/predict` and `/backup` handlers,
the error handling of both handlers, the `/test` echo route and the
per-route admission control.  External collaborators (the PIL image
decoder, the CNN scorer `cnn.get_emotion`, the generative recommender
`llm.get_recommendation`) are not part of `src/` and are represented as
oracle functions; the slowapi rate limiter is modelled from the spec.
Python floats are modelled as rationals (the thresholds 2.5, 0.5, 0.61
and 1.05 are written `mkRat 5 2`, `mkRat 1 2`, `mkRat 61 100` and
`mkRat 105 100`) and Python exceptions as their message strings.
-/

/-- A byte payload of an HTTP request body. -/
abbrev Bytes := List Nat

/-- The four raw classifier scores, in the fixed order of the dict
built at `src/app.py:138` / `src/app.py:165`: boredom, confusion,
engagement, frustration. -/
structure ScoreVector where
  boredom : ℚ
  confusion : ℚ
  engagement : ℚ
  frustration : ℚ
deriving DecidableEq

/-- Outcome of the threshold cascade: one of the four drift labels or
no drift at all. -/
inductive DriftLabel where
  | disengagement
  | frustration
  | confusion
  | boredom
  | none
deriving DecidableEq

/-- The threshold cascade exactly as written in the `/predict` handler,
`src/app.py:144-153` (`if cnn_engagement < 2.5: ... elif
cnn_frustration > 0.5: ... elif cnn_confusion > 0.61: ... elif
cnn_boredom > 1.05: ... else ...`), reduced to the label each branch
selects. -/
def predictCascade (s : ScoreVector) : DriftLabel :=
  if s.engagement < mkRat 5 2 then .disengagement
  else if s.frustration > mkRat 1 2 then .frustration
  else if s.confusion > mkRat 61 100 then .confusion
  else if s.boredom > mkRat 105 100 then .boredom
  else .none

/-- The threshold cascade exactly as written in the `/backup` handler,
`src/app.py:171-180`; the source duplicates the chain of `/predict`
rather than sharing it, so it is embedded separately. -/
def backupCascade (s : ScoreVector) : DriftLabel :=
  if s.engagement < mkRat 5 2 then .disengagement
  else if s.frustration > mkRat 1 2 then .frustration
  else if s.confusion > mkRat 61 100 then .confusion
  else if s.boredom > mkRat 105 100 then .boredom
  else .none

/-- The guard of each cascade branch taken in source order, i.e. the
branch's own test conjoined with the negation of every earlier test
(`src/app.py:144-153`). -/
def branchCond (s : ScoreVector) : DriftLabel → Prop
  | .disengagement => s.engagement < mkRat 5 2
  | .frustration => ¬s.engagement < mkRat 5 2 ∧ s.frustration > mkRat 1 2
  | .confusion =>
      ¬s.engagement < mkRat 5 2 ∧ ¬s.frustration > mkRat 1 2 ∧
        s.confusion > mkRat 61 100
  | .boredom =>
      ¬s.engagement < mkRat 5 2 ∧ ¬s.frustration > mkRat 1 2 ∧
        ¬s.confusion > mkRat 61 100 ∧ s.boredom > mkRat 105 100
  | .none =>
      ¬s.engagement < mkRat 5 2 ∧ ¬s.frustration > mkRat 1 2 ∧
        ¬s.confusion > mkRat 61 100 ∧ ¬s.boredom > mkRat 105 100

/-- An HTTP response of the `/predict` and `/backup` routes: a status
code and a text body (both handlers answer in-body with status 200;
the limiter answers 429). -/
structure Response where
  status : Nat
  body : String
deriving DecidableEq

/-- Modelled from the spec: the three external collaborators used by
`src/app.py` whose code is not under `src/` — PIL image decoding
(`Image.open(BytesIO(body)).convert("RGB")`), the CNN scorer
(`cnn.get_emotion(pilimage)[0].tolist()`) and the generative
recommender (`llm.get_recommendation(label)`).  Each is an oracle that
either returns a value or raises an exception, modelled by its message
string; the image type is opaque. -/
structure Pipeline (Img : Type) where
  decode : Bytes → Except String Img
  get_emotion : Img → Except String (List ℚ)
  get_recommendation : String → Except String String

/-- Python list indexing `xs[i]`: the value when `i` is in range,
otherwise an `IndexError` whose message is the CPython text
`list index out of range`.  This is the subscripting performed at
`src/app.py:138` / `src/app.py:165` when the score list is built into
the dict. -/
def pyGet (xs : List ℚ) (i : Nat) : Except String ℚ :=
  match xs.get? i with
  | some v => .ok v
  | Option.none => .error "list index out of range"

/-- The body of the `try:` block of the `/predict` handler
(`src/app.py:135-153`): decode the image, score it, read the four
scores out of the list in dict order (boredom, confusion, engagement,
frustration), then run the threshold cascade, calling the recommender
on a drift label and answering the fixed no-drift message otherwise. -/
def predictPipeline {Img : Type} (P : Pipeline Img) (body : Bytes) :
    Except String String := do
  let pilimage ← P.decode body
  let cnn_predict ← P.get_emotion pilimage
  let cnn_boredom ← pyGet cnn_predict 0
  let cnn_confusion ← pyGet cnn_predict 1
  let cnn_engagement ← pyGet cnn_predict 2
  let cnn_frustration ← pyGet cnn_predict 3
  if cnn_engagement < mkRat 5 2 then P.get_recommendation "disengagement"
  else if cnn_frustration > mkRat 1 2 then P.get_recommendation "frustration"
  else if cnn_confusion > mkRat 61 100 then P.get_recommendation "confusion"
  else if cnn_boredom > mkRat 105 100 then P.get_recommendation "boredom"
  else pure "Good news, no cognitive drift recognized!"

/-- The diagnostic string built by the `except` arm of `/predict`
(`src/app.py:155`), with the exception's message interpolated at the
end. -/
def predictErrorBody (exc : String) : String :=
  "Error in the process! Please use /backup endpoint for now. Displaying error message:\n"
    ++ exc

/-- The `/predict` handler `analyze_drift` (`src/app.py:126-155`): run
the pipeline under `try:`; any exception is caught and turned into the
diagnostic body.  Both outcomes are ordinary status-200 responses. -/
def analyze_drift {Img : Type} (P : Pipeline Img) (body : Bytes) : Response :=
  match predictPipeline P body with
  | .ok s => ⟨200, s⟩
  | .error exc => ⟨200, predictErrorBody exc⟩

/-- The body of the `try:` block of the `/backup` handler
(`src/app.py:162-180`): same decode, scoring, dict construction and
thresholds as `/predict`, but each drift label answers a fixed static
message and no recommender is called. -/
def backupPipeline {Img : Type} (P : Pipeline Img) (body : Bytes) :
    Except String String := do
  let pilimage ← P.decode body
  let cnn_predict ← P.get_emotion pilimage
  let cnn_boredom ← pyGet cnn_predict 0
  let cnn_confusion ← pyGet cnn_predict 1
  let cnn_engagement ← pyGet cnn_predict 2
  let cnn_frustration ← pyGet cnn_predict 3
  if cnn_engagement < mkRat 5 2 then
    pure "Disengagement: careful, you\x27re losing focus!"
  else if cnn_frustration > mkRat 1 2 then
    pure "Frustration: maybe it\x27s time for a pause?"
  else if cnn_confusion > mkRat 61 100 then
    pure "Confusion: ask someone else\x27s opinion on what you do not understand?"
  else if cnn_boredom > mkRat 105 100 then
    pure "Boredom: a short walk to get back into things!"
  else pure "Good news: no cognitive drift recognized!"

/-- The `/backup` handler `backup_analysis` (`src/app.py:159-182`): run
the pipeline under `try:`; the `except` arm returns the caught
exception itself (`return exc`, `src/app.py:182`), modelled by the
exception's message string, again as an ordinary status-200 response. -/
def backup_analysis {Img : Type} (P : Pipeline Img) (body : Bytes) : Response :=
  match backupPipeline P body with
  | .ok s => ⟨200, s⟩
  | .error exc => ⟨200, exc⟩

/-- The static message table of `/backup` (`src/app.py:171-180`), one
fixed string per cascade outcome. -/
def backupMessage : DriftLabel → String
  | .disengagement => "Disengagement: careful, you\x27re losing focus!"
  | .frustration => "Frustration: maybe it\x27s time for a pause?"
  | .confusion => "Confusion: ask someone else\x27s opinion on what you do not understand?"
  | .boredom => "Boredom: a short walk to get back into things!"
  | .none => "Good news: no cognitive drift recognized!"

/-- How `/predict` renders a cascade outcome (`src/app.py:144-153`):
a drift label is sent to the recommender, no drift answers the fixed
message. -/
def predictRender {Img : Type} (P : Pipeline Img) : DriftLabel → Except String String
  | .disengagement => P.get_recommendation "disengagement"
  | .frustration => P.get_recommendation "frustration"
  | .confusion => P.get_recommendation "confusion"
  | .boredom => P.get_recommendation "boredom"
  | .none => pure "Good news, no cognitive drift recognized!"

/-- An HTTP request as seen by the `/test` handler: raw body bytes and
header list (keys normalized to lower case, as the framework does). -/
structure TestRequest where
  body : Bytes
  headers : List (String × String)

/-- Python's `headers.get(key, default)` (`src/app.py:120`). -/
def headersGet (headers : List (String × String)) (key dflt : String) : String :=
  match headers.lookup key with
  | some v => v
  | Option.none => dflt

/-- The raw response assembled by the `/test` handler: echoed bytes and
a media type. -/
structure EchoResponse where
  status : Nat
  content : Bytes
  media_type : String
deriving DecidableEq

/-- The `/test` handler `check_request` (`src/app.py:103-121`): answer
the request body unchanged, with the declared content type, or
`application/octet-stream` when no content-type header is present. -/
def check_request (req : TestRequest) : EchoResponse :=
  ⟨200, req.body, headersGet req.headers "content-type" "application/octet-stream"⟩

/-- Modelled from the spec: the slowapi `Limiter` attached to each
route (`src/app.py:86-88`) is an external library; the spec describes
it as a per-client fixed-window counter.  The per-client window state:
requests admitted in the current window and the window's start time. -/
structure WindowState where
  count : Nat
  windowStart : Nat
deriving DecidableEq

/-- Modelled from the spec: one admission decision of the Admission
Controller.  An expired window is reset and re-anchored; a request at
or above the route's budget is rejected, otherwise the counter is
incremented and the request proceeds. -/
def admitOne (maxRequests window : Nat) (st : WindowState) (now : Nat) :
    Bool × WindowState :=
  let st1 := if st.windowStart + window ≤ now then ⟨0, now⟩ else st
  if maxRequests ≤ st1.count then (false, st1)
  else (true, ⟨st1.count + 1, st1.windowStart⟩)

/-- Modelled from the spec: the admission decisions for a sequence of
request times from one client on one route, threading the window
state. -/
def admitSeq (maxRequests window : Nat) (st : WindowState) :
    List Nat → List Bool × WindowState
  | [] => ([], st)
  | t :: ts =>
    let r1 := admitOne maxRequests window st t
    let rest := admitSeq maxRequests window r1.2 ts
    (r1.1 :: rest.1, rest.2)

/-- The request budget of the `/test` route: `"5/minute"`
(`src/app.py:102`). -/
def testRateLimit : Nat := 5

/-- The request budget of the `/predict` route: `"2/minute"`
(`src/app.py:125`). -/
def predictRateLimit : Nat := 2

/-- The request budget of the `/backup` route: `"2/minute"`
(`src/app.py:158`). -/
def backupRateLimit : Nat := 2

/-- The window length shared by all three budgets, one minute, in
seconds. -/
def windowSeconds : Nat := 60

/-- Modelled from the spec: the rejection answered by the limiter
in place of route logic, with the distinct 429 status. -/
def rateLimitResponse : Response := ⟨429, "Rate limit exceeded"⟩

/-- Modelled from the spec: a budgeted route — the admission gate runs
first and only an admitted request reaches the handler; a rejected one
gets the fixed 429 response. -/
def gateRoute {Req : Type} (maxRequests window : Nat)
    (handler : Req → Response) (st : WindowState) (now : Nat) (req : Req) :
    Response × WindowState :=
  match admitOne maxRequests window st now with
  | (true, st1) => (handler req, st1)
  | (false, st1) => (rateLimitResponse, st1)

/-- Modelled from the spec: the `/test` route behind its admission
gate; a rejected request gets the 429 rejection instead of the echo. -/
def gatedCheckRequest (st : WindowState) (now : Nat) (req : TestRequest) :
    EchoResponse × WindowState :=
  match admitOne testRateLimit windowSeconds st now with
  | (true, st1) => (check_request req, st1)
  | (false, st1) => (⟨429, [], "text/plain"⟩, st1)

/-- Claim C1: for every ScoreVector whose engagement score is strictly
below 2.5, the cascade embedded in both the `/predict` and `/backup`
handlers selects Disengagement, whatever the boredom, confusion and
frustration scores are; the branch dominates all others. -/
theorem C1_disengagement_priority (s : ScoreVector)
    (h : s.engagement < mkRat 5 2) :
    predictCascade s = .disengagement ∧ backupCascade s = .disengagement := by
  simp [predictCascade, backupCascade, h]

/-- Witness for C1 at the vector (boredom, confusion, engagement,
frustration) = (1000, 1000, 0, 1000). -/
theorem C1_disengagement_priority_witness :
    (0 : ℚ) < mkRat 5 2 ∧
      predictCascade ⟨1000, 1000, 0, 1000⟩ = .disengagement ∧
      backupCascade ⟨1000, 1000, 0, 1000⟩ = .disengagement :=
  ⟨by decide, C1_disengagement_priority ⟨1000, 1000, 0, 1000⟩ (by decide)⟩

/-- Claim C2: when engagement is at least 2.5, both handlers test the
remaining branches in the order frustration, confusion, boredom, first
match winning, and fall through to no drift. -/
theorem C2_branch_order (s : ScoreVector) (h : mkRat 5 2 ≤ s.engagement) :
    (s.frustration > mkRat 1 2 →
        predictCascade s = .frustration ∧ backupCascade s = .frustration)
    ∧ (s.frustration ≤ mkRat 1 2 → s.confusion > mkRat 61 100 →
        predictCascade s = .confusion ∧ backupCascade s = .confusion)
    ∧ (s.frustration ≤ mkRat 1 2 → s.confusion ≤ mkRat 61 100 →
        s.boredom > mkRat 105 100 →
        predictCascade s = .boredom ∧ backupCascade s = .boredom)
    ∧ (s.frustration ≤ mkRat 1 2 → s.confusion ≤ mkRat 61 100 →
        s.boredom ≤ mkRat 105 100 →
        predictCascade s = .none ∧ backupCascade s = .none) := by
  have he : ¬s.engagement < mkRat 5 2 := not_lt.mpr h
  refine ⟨fun hf => ?_, fun hf hc => ?_, fun hf hc hb => ?_, fun hf hc hb => ?_⟩
  · simp [predictCascade, backupCascade, he, hf]
  · simp [predictCascade, backupCascade, he, not_lt.mpr hf, hc]
  · simp [predictCascade, backupCascade, he, not_lt.mpr hf, not_lt.mpr hc, hb]
  · simp [predictCascade, backupCascade, he, not_lt.mpr hf, not_lt.mpr hc,
      not_lt.mpr hb]

/-- Witness for C2 at (2, 1, 3, 0): engagement 3 clears 2.5,
frustration 0 misses 0.5, confusion 1 clears 0.61, so both cascades
answer Confusion. -/
theorem C2_branch_order_witness :
    mkRat 5 2 ≤ (3 : ℚ) ∧ (0 : ℚ) ≤ mkRat 1 2 ∧ (1 : ℚ) > mkRat 61 100 ∧
      (predictCascade ⟨2, 1, 3, 0⟩ = .confusion ∧
        backupCascade ⟨2, 1, 3, 0⟩ = .confusion) :=
  ⟨by decide, by decide, by decide,
    (C2_branch_order ⟨2, 1, 3, 0⟩ (by decide)).2.1 (by decide) (by decide)⟩

/-- Claim C3: on every ScoreVector exactly one of the five in-order
branch guards holds, and the cascade returns exactly the label of that
guard — the cascade is total and its branches are mutually
exclusive. -/
theorem C3_exactly_one_branch (s : ScoreVector) :
    (∃! l : DriftLabel, branchCond s l) ∧
      ∀ l : DriftLabel, branchCond s l ↔ predictCascade s = l := by
  have key : ∀ l : DriftLabel, branchCond s l ↔ predictCascade s = l := by
    intro l
    by_cases h1 : s.engagement < mkRat 5 2 <;>
      by_cases h2 : s.frustration > mkRat 1 2 <;>
      by_cases h3 : s.confusion > mkRat 61 100 <;>
      by_cases h4 : s.boredom > mkRat 105 100 <;>
      cases l <;> simp [branchCond, predictCascade, h1, h2, h3, h4]
  exact ⟨⟨predictCascade s, (key _).mpr rfl,
    fun l hl => ((key l).mp hl).symm⟩, key⟩

/-- When decoding and scoring succeed with at least four scores, the
`/predict` try-block reduces to rendering the cascade outcome of the
first four scores taken in dict order. -/
lemma predictPipeline_scores {Img : Type} (P : Pipeline Img) (body : Bytes)
    (img : Img) (b c e f : ℚ) (rest : List ℚ)
    (h1 : P.decode body = .ok img)
    (h2 : P.get_emotion img = .ok (b :: c :: e :: f :: rest)) :
    predictPipeline P body = predictRender P (predictCascade ⟨b, c, e, f⟩) := by
  simp only [predictPipeline, h1, h2, bind, Except.bind, pyGet, List.get?,
    predictRender, predictCascade]
  split_ifs <;> rfl

/-- When decoding and scoring succeed with at least four scores, the
`/backup` try-block reduces to the static message of the cascade
outcome of the first four scores taken in dict order. -/
lemma backupPipeline_scores {Img : Type} (P : Pipeline Img) (body : Bytes)
    (img : Img) (b c e f : ℚ) (rest : List ℚ)
    (h1 : P.decode body = .ok img)
    (h2 : P.get_emotion img = .ok (b :: c :: e :: f :: rest)) :
    backupPipeline P body = .ok (backupMessage (backupCascade ⟨b, c, e, f⟩)) := by
  simp only [backupPipeline, h1, h2, bind, Except.bind, pyGet, List.get?,
    backupMessage, backupCascade]
  split_ifs <;> rfl

/-- When the score list has fewer than four entries, building the dict
raises the Python IndexError, so both try-blocks end in that error and
the cascade is never reached. -/
lemma pipeline_short_list {Img : Type} (P : Pipeline Img) (body : Bytes)
    (img : Img) (pred : List ℚ)
    (h1 : P.decode body = .ok img)
    (h2 : P.get_emotion img = .ok pred)
    (hlen : pred.length < 4) :
    predictPipeline P body = .error "list index out of range" ∧
      backupPipeline P body = .error "list index out of range" := by
  rcases pred with _ | ⟨x0, _ | ⟨x1, _ | ⟨x2, _ | ⟨x3, rest⟩⟩⟩⟩
  · constructor <;>
      simp only [predictPipeline, backupPipeline, h1, h2, bind, Except.bind,
        pyGet, List.get?]
  · constructor <;>
      simp only [predictPipeline, backupPipeline, h1, h2, bind, Except.bind,
        pyGet, List.get?]
  · constructor <;>
      simp only [predictPipeline, backupPipeline, h1, h2, bind, Except.bind,
        pyGet, List.get?]
  · constructor <;>
      simp only [predictPipeline, backupPipeline, h1, h2, bind, Except.bind,
        pyGet, List.get?]
  · simp only [List.length_cons] at hlen
    omega

/-- A concrete collaborator assignment on which every step succeeds and
the scorer reports (0, 0, 3, 0): engagement 3 clears 2.5 and nothing
else fires, so both cascades answer no drift. -/
def noDriftPipe : Pipeline Unit where
  decode := fun _ => .ok ()
  get_emotion := fun _ => .ok [0, 0, 3, 0]
  get_recommendation := fun l => .ok ("Recommendation for " ++ l)

/-- Counterexample to C4 as stated: on the no-drift outcome the two
handlers do not answer the identical string — `/predict` writes
`Good news,` (`src/app.py:153`) where `/backup` writes `Good news:`
(`src/app.py:180`). -/
theorem C4_counterexample :
    predictCascade ⟨0, 0, 3, 0⟩ = .none ∧
      backupCascade ⟨0, 0, 3, 0⟩ = .none ∧
      (analyze_drift noDriftPipe []).body =
        "Good news, no cognitive drift recognized!" ∧
      (backup_analysis noDriftPipe []).body =
        "Good news: no cognitive drift recognized!" ∧
      (analyze_drift noDriftPipe []).body ≠ (backup_analysis noDriftPipe []).body :=
  ⟨by decide, by decide, rfl, rfl, by decide⟩

/-- Claim C4 as amended: both pipelines select the same DriftLabel on
every ScoreVector (the duplicated threshold chains agree), and on the
None outcome each returns its own fixed no-drift message — the two
messages differing by one punctuation character (comma vs colon). -/
theorem C4_same_label_distinct_none_messages {Img : Type} (P : Pipeline Img)
    (body : Bytes) (img : Img) (b c e f : ℚ) (rest : List ℚ)
    (h1 : P.decode body = .ok img)
    (h2 : P.get_emotion img = .ok (b :: c :: e :: f :: rest))
    (hnone : predictCascade ⟨b, c, e, f⟩ = .none) :
    (∀ s : ScoreVector, predictCascade s = backupCascade s)
    ∧ analyze_drift P body = ⟨200, "Good news, no cognitive drift recognized!"⟩
    ∧ backup_analysis P body = ⟨200, "Good news: no cognitive drift recognized!"⟩
    ∧ "Good news, no cognitive drift recognized!"
        ≠ "Good news: no cognitive drift recognized!" := by
  refine ⟨fun s => rfl, ?_, ?_, by decide⟩
  · rw [analyze_drift, predictPipeline_scores P body img b c e f rest h1 h2,
      hnone, predictRender]
    rfl
  · rw [backup_analysis, backupPipeline_scores P body img b c e f rest h1 h2]
    have hb : backupCascade ⟨b, c, e, f⟩ = .none := by
      rw [show backupCascade ⟨b, c, e, f⟩ = predictCascade ⟨b, c, e, f⟩ from rfl,
        hnone]
    rw [hb, backupMessage]

/-- Witness for the amended C4 on the concrete collaborators of
`noDriftPipe`. -/
theorem C4_same_label_distinct_none_messages_witness :
    predictCascade ⟨0, 0, 3, 0⟩ = .none ∧
      analyze_drift noDriftPipe [] =
        ⟨200, "Good news, no cognitive drift recognized!"⟩ ∧
      backup_analysis noDriftPipe [] =
        ⟨200, "Good news: no cognitive drift recognized!"⟩ :=
  ⟨by decide,
    (C4_same_label_distinct_none_messages noDriftPipe [] () 0 0 3 0 [] rfl rfl
      (by decide)).2.1,
    (C4_same_label_distinct_none_messages noDriftPipe [] () 0 0 3 0 [] rfl rfl
      (by decide)).2.2.1⟩

/-- Claim C5: whenever any step of the `/predict` try-block fails, the
handler answers an ordinary status-200 response whose body is the
diagnostic string naming the failure, and that body contains the text
`/backup` directing the caller to the backup route; no exception leaves
the handler. -/
theorem C5_predict_catches_and_redirects {Img : Type} (P : Pipeline Img)
    (body : Bytes) (exc : String)
    (h : predictPipeline P body = .error exc) :
    analyze_drift P body = ⟨200, predictErrorBody exc⟩
    ∧ (analyze_drift P body).status = 200
    ∧ ∃ u v : List Char,
        (analyze_drift P body).body.data = u ++ "/backup".data ++ v := by
  have hresp : analyze_drift P body = ⟨200, predictErrorBody exc⟩ := by
    rw [analyze_drift, h]
  refine ⟨hresp, by rw [hresp], "Error in the process! Please use ".data,
    " endpoint for now. Displaying error message:\n".data ++ exc.data, ?_⟩
  rw [hresp]
  show (predictErrorBody exc).data = _
  rw [predictErrorBody, String.data_append]
  have hsplit :
      ("Error in the process! Please use /backup endpoint for now. Displaying error message:\n").data
        = "Error in the process! Please use ".data ++ "/backup".data
            ++ " endpoint for now. Displaying error message:\n".data := by decide
  rw [hsplit]
  simp [List.append_assoc]

/-- A concrete collaborator assignment on which image decoding always
fails, as it does on an unparsable or empty byte payload. -/
def failingDecodePipe : Pipeline Unit where
  decode := fun _ => .error "cannot identify image file"
  get_emotion := fun _ => .ok [0, 0, 3, 0]
  get_recommendation := fun l => .ok ("Recommendation for " ++ l)

/-- Witness for C5: with decoding failing on the empty payload, the
`/predict` handler answers 200 with the diagnostic body. -/
theorem C5_predict_catches_and_redirects_witness :
    predictPipeline failingDecodePipe [] = .error "cannot identify image file" ∧
      analyze_drift failingDecodePipe [] =
        ⟨200, predictErrorBody "cannot identify image file"⟩ :=
  ⟨rfl, (C5_predict_catches_and_redirects failingDecodePipe []
    "cannot identify image file" rfl).1⟩

/-- Claim C6: whenever any step of the `/backup` try-block fails, the
handler catches the exception and answers it (its diagnostic detail)
as an ordinary status-200 response — neither swallowed nor fatal. -/
theorem C6_backup_surfaces_raw_error {Img : Type} (P : Pipeline Img)
    (body : Bytes) (exc : String)
    (h : backupPipeline P body = .error exc) :
    backup_analysis P body = ⟨200, exc⟩ := by
  rw [backup_analysis, h]

/-- Witness for C6: with decoding failing on the empty payload, the
`/backup` handler answers 200 with the raw error description. -/
theorem C6_backup_surfaces_raw_error_witness :
    backupPipeline failingDecodePipe [] = .error "cannot identify image file" ∧
      backup_analysis failingDecodePipe [] = ⟨200, "cannot identify image file"⟩ :=
  ⟨rfl, C6_backup_surfaces_raw_error failingDecodePipe []
    "cannot identify image file" rfl⟩

/-- A concrete collaborator assignment whose scorer returns five
entries instead of four. -/
def fiveScorePipe : Pipeline Unit where
  decode := fun _ => .ok ()
  get_emotion := fun _ => .ok [1, 1, 1, 1, 1]
  get_recommendation := fun l => .ok ("Recommendation for " ++ l)

/-- Counterexample to C7 as stated: a five-entry score list is not
treated as a classification error — the dict built at `src/app.py:138`
silently keeps the first four entries, the cascade runs on them
(engagement 1 < 2.5) and `/predict` answers a drift recommendation,
not an error response. -/
theorem C7_counterexample :
    [1, 1, 1, 1, (1 : ℚ)].length ≠ 4 ∧
      fiveScorePipe.get_emotion () = .ok [1, 1, 1, 1, 1] ∧
      predictPipeline fiveScorePipe [] = .ok "Recommendation for disengagement" ∧
      analyze_drift fiveScorePipe [] = ⟨200, "Recommendation for disengagement"⟩ ∧
      backup_analysis fiveScorePipe [] =
        ⟨200, "Disengagement: careful, you\x27re losing focus!"⟩ :=
  ⟨by decide, rfl, rfl, rfl, rfl⟩

/-- Claim C7 as amended: a score list with fewer than four entries is
caught as an error — the out-of-range access raises, both handlers
answer their error response and the cascade never runs; but a list
with more than four entries is not rejected: its first four entries
are passed to the cascade in dict order. -/
theorem C7_short_list_rejected_long_list_truncated {Img : Type}
    (P : Pipeline Img) (body : Bytes) (img : Img) (pred : List ℚ)
    (h1 : P.decode body = .ok img)
    (h2 : P.get_emotion img = .ok pred) :
    (pred.length < 4 →
        analyze_drift P body = ⟨200, predictErrorBody "list index out of range"⟩
        ∧ backup_analysis P body = ⟨200, "list index out of range"⟩)
    ∧ ∀ b c e f : ℚ, ∀ rest : List ℚ, pred = b :: c :: e :: f :: rest →
        predictPipeline P body = predictRender P (predictCascade ⟨b, c, e, f⟩)
        ∧ backupPipeline P body = .ok (backupMessage (backupCascade ⟨b, c, e, f⟩)) := by
  constructor
  · intro hlen
    have hp := pipeline_short_list P body img pred h1 h2 hlen
    constructor
    · rw [analyze_drift, hp.1]
    · rw [backup_analysis, hp.2]
  · intro b c e f rest hpred
    subst hpred
    exact ⟨predictPipeline_scores P body img b c e f rest h1 h2,
      backupPipeline_scores P body img b c e f rest h1 h2⟩

/-- A concrete collaborator assignment whose scorer returns only two
entries. -/
def twoScorePipe : Pipeline Unit where
  decode := fun _ => .ok ()
  get_emotion := fun _ => .ok [1, 1]
  get_recommendation := fun l => .ok ("Recommendation for " ++ l)

/-- Witness for the amended C7: a two-entry score list makes both
handlers answer their error response. -/
theorem C7_short_list_rejected_long_list_truncated_witness :
    ([1, (1 : ℚ)].length < 4) ∧
      analyze_drift twoScorePipe [] =
        ⟨200, predictErrorBody "list index out of range"⟩ ∧
      backup_analysis twoScorePipe [] = ⟨200, "list index out of range"⟩ :=
  ⟨by decide,
    (C7_short_list_rejected_long_list_truncated twoScorePipe [] () [1, 1]
      rfl rfl).1 (by decide)⟩

/-- Within one window (every request time before the window's end and
starting from a counter not above the budget), the admission gate
admits exactly the requests that still fit the budget, in order, and
the counter never passes the budget. -/
lemma admitSeq_in_window (maxReq w t0 : Nat) (ts : List Nat) (c : Nat)
    (hc : c ≤ maxReq) (hw : ∀ t ∈ ts, t < t0 + w) :
    (admitSeq maxReq w ⟨c, t0⟩ ts).1 =
        List.replicate (min ts.length (maxReq - c)) true
          ++ List.replicate (ts.length - (maxReq - c)) false
      ∧ (admitSeq maxReq w ⟨c, t0⟩ ts).2 = ⟨min (c + ts.length) maxReq, t0⟩ := by
  induction ts generalizing c with
  | nil =>
    refine ⟨by simp [admitSeq], ?_⟩
    simp only [admitSeq, List.length_nil]
    have hmin : min (c + 0) maxReq = c := by omega
    rw [hmin]
  | cons t ts ih =>
    have ht : t < t0 + w := hw t (by simp)
    have hw2 : ∀ u ∈ ts, u < t0 + w := fun u hu => hw u (by simp [hu])
    have hnr : ¬t0 + w ≤ t := by omega
    by_cases hfull : maxReq ≤ c
    · have hA : admitOne maxReq w ⟨c, t0⟩ t = (false, ⟨c, t0⟩) := by
        simp [admitOne, hnr, hfull]
      have rec := ih c hc hw2
      have hr0 : maxReq - c = 0 := by omega
      constructor
      · simp only [admitSeq, hA, rec.1, List.length_cons, hr0]
        simp [List.replicate_succ]
      · simp only [admitSeq, hA, rec.2, List.length_cons]
        have hmin : min (c + ts.length) maxReq = min (c + (ts.length + 1)) maxReq := by
          omega
        rw [hmin]
    · have hlt : c < maxReq := by omega
      have hA : admitOne maxReq w ⟨c, t0⟩ t = (true, ⟨c + 1, t0⟩) := by
        simp [admitOne, hnr, hfull]
      have rec := ih (c + 1) (by omega) hw2
      constructor
      · simp only [admitSeq, hA, rec.1, List.length_cons]
        have e1 : min (ts.length + 1) (maxReq - c) =
            min ts.length (maxReq - (c + 1)) + 1 := by omega
        have e2 : ts.length + 1 - (maxReq - c) =
            ts.length - (maxReq - (c + 1)) := by omega
        rw [e1, e2, List.replicate_succ, List.cons_append]
      · simp only [admitSeq, hA, rec.2, List.length_cons]
        have e3 : min (c + 1 + ts.length) maxReq =
            min (c + (ts.length + 1)) maxReq := by omega
        rw [e3]

/-- Claim C9: from a fresh window, the gate admits requests in order
while the budget lasts and rejects from the (budget+1)-th on — in
particular a sequence of budget+1 in-window requests ends in one
rejection; the window counter never exceeds the budget; a rejected
request gets the fixed 429 rejection and never reaches the handler;
and the budgets declared on the routes are 5 per window for `/test`
and 2 per window for `/predict` and `/backup`. -/
theorem C9_rate_limit_budgets (b w t0 : Nat) (ts : List Nat)
    (hw : ∀ t ∈ ts, t < t0 + w) :
    (admitSeq b w ⟨0, t0⟩ ts).1 =
        List.replicate (min ts.length b) true
          ++ List.replicate (ts.length - b) false
    ∧ (admitSeq b w ⟨0, t0⟩ ts).2.count ≤ b
    ∧ (ts.length = b + 1 →
        (admitSeq b w ⟨0, t0⟩ ts).1 = List.replicate b true ++ [false])
    ∧ (∀ (Req : Type) (h1 h2 : Req → Response) (st : WindowState) (now : Nat)
          (req : Req), (admitOne b w st now).1 = false →
          gateRoute b w h1 st now req = gateRoute b w h2 st now req
          ∧ (gateRoute b w h1 st now req).1 = rateLimitResponse
          ∧ rateLimitResponse.status = 429)
    ∧ testRateLimit = 5 ∧ predictRateLimit = 2 ∧ backupRateLimit = 2 := by
  have key := admitSeq_in_window b w t0 ts 0 (Nat.zero_le b) hw
  have hsub : b - 0 = b := by omega
  refine ⟨by rw [key.1, hsub], by rw [key.2]; simp, fun hlen => ?_, ?_, rfl, rfl, rfl⟩
  · rw [key.1, hsub, hlen]
    have e1 : min (b + 1) b = b := by omega
    have e2 : b + 1 - b = 1 := by omega
    rw [e1, e2, List.replicate_one]
  · intro Req h1 h2 st now req hrej
    rcases hA : admitOne b w st now with ⟨ok, st1⟩
    rw [hA] at hrej
    simp only at hrej
    subst hrej
    exact ⟨by simp [gateRoute, hA], by simp [gateRoute, hA], rfl⟩

/-- Witness for C9: with budget 2 in a 60-long window anchored at time
100, three requests at times 100, 110, 120 are admitted, admitted,
rejected, and the counter ends at 2. -/
theorem C9_rate_limit_budgets_witness :
    (admitSeq 2 60 ⟨0, 100⟩ [100, 110, 120]).1 = [true, true, false] ∧
      (admitSeq 2 60 ⟨0, 100⟩ [100, 110, 120]).2.count ≤ 2 :=
  ⟨((C9_rate_limit_budgets 2 60 100 [100, 110, 120] (by decide)).2.2.1
      (by decide)).trans (by decide),
    (C9_rate_limit_budgets 2 60 100 [100, 110, 120] (by decide)).2.1⟩

/-- Claim C8: an admitted POST to `/test` is answered with exactly the
request body as content and the request's declared content type; in
particular a declared `text/plain` request gets `text/plain` back. -/
theorem C8_test_echoes_body_and_content_type (st : WindowState) (now : Nat)
    (req : TestRequest)
    (h : (admitOne testRateLimit windowSeconds st now).1 = true) :
    (gatedCheckRequest st now req).1 =
        ⟨200, req.body,
          headersGet req.headers "content-type" "application/octet-stream"⟩
    ∧ (req.headers.lookup "content-type" = some "text/plain" →
        (gatedCheckRequest st now req).1 = ⟨200, req.body, "text/plain"⟩) := by
  rcases hA : admitOne testRateLimit windowSeconds st now with ⟨ok, st1⟩
  rw [hA] at h
  simp only at h
  subst h
  constructor
  · simp [gatedCheckRequest, hA, check_request]
  · intro hct
    simp [gatedCheckRequest, hA, check_request, headersGet, hct]

/-- The byte sequence of the payload `b"Hello World !"` used by the
repository's own echo test (`src/test/test_api.py:33`). -/
def helloWorldBytes : Bytes :=
  [72, 101, 108, 108, 111, 32, 87, 111, 114, 108, 100, 32, 33]

/-- Witness for C8: from a fresh window, the `Hello World !` payload
declared `text/plain` is echoed byte-for-byte with `text/plain`. -/
theorem C8_test_echoes_body_and_content_type_witness :
    (admitOne testRateLimit windowSeconds ⟨0, 0⟩ 0).1 = true ∧
      (gatedCheckRequest ⟨0, 0⟩ 0
          ⟨helloWorldBytes, [("content-type", "text/plain")]⟩).1 =
        ⟨200, helloWorldBytes, "text/plain"⟩ :=
  ⟨by decide,
    (C8_test_echoes_body_and_content_type ⟨0, 0⟩ 0
      ⟨helloWorldBytes, [("content-type", "text/plain")]⟩ (by decide)).2
      (by decide)⟩

/-- Claim C10: a `/test` request with no content-type header is echoed
unchanged with the substituted default media type
`application/octet-stream`. -/
theorem C10_test_default_media_type (req : TestRequest)
    (h : req.headers.lookup "content-type" = Option.none) :
    check_request req = ⟨200, req.body, "application/octet-stream"⟩ := by
  simp [check_request, headersGet, h]

/-- Witness for C10: the `Hello World !` payload with an empty header
list comes back unchanged under `application/octet-stream`. -/
theorem C10_test_default_media_type_witness :
    (List.lookup "content-type" ([] : List (String × String)) = Option.none) ∧
      check_request ⟨helloWorldBytes, []⟩ =
        ⟨200, helloWorldBytes, "application/octet-stream"⟩ :=
  ⟨rfl, C10_test_default_media_type ⟨helloWorldBytes, []⟩ rfl⟩
